import Mathlib

/-!
Verification development for the MTA-to-DCH repository.

The repository reads electricity wholesale price records (settlement
timestamp + regional reference price), maps each price into a discrete
band, assembles a JSON upload envelope, and uploads it to the Data
Clearing House API, either for the last hour (`lambda_handler` in
`main.py`) or for the full history in fixed-size chunks (`main` in
`backfill.py`).

This file shallowly embeds the pure core of that code:
  * `calculate_rrp_value`   — the threshold classifier (`main.py`)
  * `construct_dch_payload` — the payload builder (`main.py`)
  * `batch_list`            — list chunking (`backfill.py`)
  * `backfill_run`          — the per-chunk loop with its
                              success/failure accounting and exit code
                              (`backfill.py`, `main`)
  * `lambda_handler`        — the periodic job's control flow (`main.py`)

External effects (the database fetch and the HTTP upload) are passed in
as explicit inputs: the fetched record list is an argument, and the
outcome of each upload attempt is an oracle argument, since the network
result is not determined by the payload.
-/

/-- Wall-clock timestamp as carried by a Python `datetime`: civil date
and time-of-day fields plus an optional UTC offset (`tzinfo.utcoffset`)
in minutes; `none` models a naive datetime. Microseconds are omitted:
the repository formats with `%S`, which ignores them. -/
structure DateTime where
  year : Nat
  month : Nat
  day : Nat
  hour : Nat
  minute : Nat
  second : Nat
  offsetMinutes : Option Int
  deriving DecidableEq, Repr

/-- Zero-padding to two digits, as Python `strftime` does for
`%m %d %H %M %S`. -/
def pad2 (n : Nat) : String :=
  if n < 10 then "0" ++ toString n else toString n

/-- Zero-padding to four digits, as Python `strftime` does for `%Y`. -/
def pad4 (n : Nat) : String :=
  if n < 10 then "000" ++ toString n
  else if n < 100 then "00" ++ toString n
  else if n < 1000 then "0" ++ toString n
  else toString n

/-- Embeds `timestamp.strftime("%Y-%m-%dT%H:%M:%SZ")` from
`construct_dch_payload` (`main.py` line 68): the wall-clock fields are
formatted and a literal `Z` is appended. `strftime` with these
directives reads only the local fields; the `offsetMinutes` of the
datetime plays no role. -/
def strftimeDCH (d : DateTime) : String :=
  pad4 d.year ++ "-" ++ pad2 d.month ++ "-" ++ pad2 d.day ++ "T" ++
    pad2 d.hour ++ ":" ++ pad2 d.minute ++ ":" ++ pad2 d.second ++ "Z"

/-- Numeric value of a decimal digit character, `none` otherwise. -/
def digitVal (c : Char) : Option Nat :=
  if '0' ≤ c ∧ c ≤ '9' then some (c.toNat - 48) else none

/-- Two-digit decimal number from two characters. -/
def num2 (a b : Char) : Option Nat := do
  let x ← digitVal a
  let y ← digitVal b
  pure (10 * x + y)

/-- Four-digit decimal number from four characters. -/
def num4 (a b c d : Char) : Option Nat := do
  let x ← num2 a b
  let y ← num2 c d
  pure (100 * x + y)

/-- Days in a month under the Gregorian leap-year rule, as Python
`datetime` validates them. -/
def daysInMonth (y m : Nat) : Nat :=
  if m = 2 then
    if (y % 4 = 0 ∧ y % 100 ≠ 0) ∨ y % 400 = 0 then 29 else 28
  else if m = 4 ∨ m = 6 ∨ m = 9 ∨ m = 11 then 30 else 31

/-- Range-validated construction of a `DateTime`, mirroring the field
validation Python `datetime` performs. -/
def mkDateTimeChecked (y mo d h mi s : Nat) (off : Option Int) : Option DateTime :=
  if 1 ≤ y ∧ y ≤ 9999 ∧ 1 ≤ mo ∧ mo ≤ 12 ∧ 1 ≤ d ∧ d ≤ daysInMonth y mo ∧
      h ≤ 23 ∧ mi ≤ 59 ∧ s ≤ 59 then
    some ⟨y, mo, d, h, mi, s, off⟩
  else
    none

/-- Optional trailing UTC offset of an ISO-8601 string: empty (naive
datetime), or a sign followed by `HH:MM`. -/
def parseUtcOffset : List Char → Option (Option Int)
  | [] => some none
  | ['+', h1, h2, ':', m1, m2] => do
      let h ← num2 h1 h2
      let m ← num2 m1 m2
      if h ≤ 23 ∧ m ≤ 59 then pure (some ((h * 60 + m : Nat) : Int)) else none
  | ['-', h1, h2, ':', m1, m2] => do
      let h ← num2 h1 h2
      let m ← num2 m1 m2
      if h ≤ 23 ∧ m ≤ 59 then pure (some (-((h * 60 + m : Nat) : Int))) else none
  | _ => none

/-- Models the Python standard-library call
`datetime.fromisoformat(...)` used at `main.py` line 66 — external to
this repository — on the ISO-8601 shape this system exchanges:
`YYYY-MM-DDTHH:MM:SS` with an optional `±HH:MM` offset. Any string not
of that shape, or with out-of-range fields, yields `none`, modelling
the `ValueError` the library raises. -/
def fromisoformat (s : String) : Option DateTime :=
  match s.toList with
  | y1 :: y2 :: y3 :: y4 :: '-' :: m1 :: m2 :: '-' :: d1 :: d2 :: 'T' :: h1 :: h2 ::
      ':' :: n1 :: n2 :: ':' :: s1 :: s2 :: rest => do
      let y ← num4 y1 y2 y3 y4
      let mo ← num2 m1 m2
      let d ← num2 d1 d2
      let h ← num2 h1 h2
      let mi ← num2 n1 n2
      let sec ← num2 s1 s2
      let off ← parseUtcOffset rest
      mkDateTimeChecked y mo d h mi sec off
  | _ => none

/-- The `settlementdate` attribute of a price record: either already a
`datetime` instance, or a value whose string form must be parsed
(`isinstance(price_signal.settlementdate, datetime)` branch at
`main.py` lines 63-66). -/
inductive SettlementDate where
  | dt (d : DateTime)
  | str (s : String)
  deriving DecidableEq, Repr

/-- One row of the `PriceSignal` table as the core reads it: settlement
timestamp and regional reference price. Prices are modelled as exact
rationals; the code applies only comparisons with the exactly
representable constants 500 and 1000 to them. -/
structure PriceSignal where
  settlementdate : SettlementDate
  rrp : ℚ
  deriving DecidableEq, Repr

/-- Error raised while building a payload: the timestamp string could
not be interpreted (Python `ValueError` from `fromisoformat`). -/
inductive DchError where
  | parseError (s : String)
  deriving DecidableEq, Repr

/-- Message text of a payload-construction error, as `str(e)` renders
it in the job's error body. -/
def DchError.text : DchError → String
  | DchError.parseError s => "Invalid isoformat string: " ++ s

/-- Timestamp resolution step of `construct_dch_payload` (`main.py`
lines 63-66): a `datetime` instance is used as is; anything else is
stringified and parsed with `fromisoformat`, raising on failure. -/
def resolve : SettlementDate → Except DchError DateTime
  | SettlementDate.dt d => Except.ok d
  | SettlementDate.str s =>
      match fromisoformat s with
      | some d => Except.ok d
      | none => Except.error (DchError.parseError s)

/-- Embeds `calculate_rrp_value` (`main.py` lines 18-35): 0 below 500,
1 from 500 below 1000, 2 from 1000 up. -/
def calculate_rrp_value (rrp : ℚ) : Nat :=
  if rrp < 500 then 0
  else if rrp < 1000 then 1
  else 2

/-- An IEEE-754 double restricted to what the classifier observes: a
finite value (embedded as the exact rational it denotes) or NaN. The
code performs no arithmetic on prices, only `<` comparisons against the
exactly representable constants 500 and 1000, so this carrier is a
faithful model of the float inputs of `calculate_rrp_value`. -/
inductive PFloat where
  | nan
  | fin (q : ℚ)
  deriving DecidableEq, Repr

/-- IEEE-754 less-than of a float against a finite constant: every
comparison with NaN is false; finite values compare as rationals. -/
def PFloat.flt : PFloat → ℚ → Bool
  | PFloat.nan, _ => false
  | PFloat.fin q, c => decide (q < c)

/-- The branch structure of `calculate_rrp_value` (`main.py` lines
30-35) over the IEEE float carrier: `if rrp < 500 ... elif rrp < 1000
... else ...` with IEEE comparison semantics. -/
def calculate_rrp_value_ieee (rrp : PFloat) : Nat :=
  if rrp.flt 500 then 0
  else if rrp.flt 1000 then 1
  else 2

/-- One element of the payload's `data` sequence (`main.py` lines
73-77): formatted timestamp `t`, point index `p`, signal level `n`. -/
structure Observation where
  t : String
  p : String
  n : Nat
  deriving DecidableEq, Repr

/-- The `metadata` object of a payload: the point table, a mapping from
index keys to composite point identifiers. -/
structure Metadata where
  points : List (String × String)
  deriving DecidableEq, Repr

/-- The DCH upload envelope: metadata plus the ordered observation
sequence. -/
structure DchPayload where
  metadata : Metadata
  data : List Observation
  deriving DecidableEq, Repr

/-- Fixed data-pool identifier from `config.py`. -/
def DCH_DATA_POOL_ID : String := "evse_kerbside_wholesale_price_drf"

/-- Fixed point identifier from `config.py`. -/
def DCH_POINT_ID : String := "wholesale_price_drf"

/-- The composite point identifier
`f"evse:{DCH_DATA_POOL_ID}:{DCH_POINT_ID}"` built at `main.py`
line 55. -/
def composite_point_id : String :=
  "evse:" ++ DCH_DATA_POOL_ID ++ ":" ++ DCH_POINT_ID

/-- The per-record loop of `construct_dch_payload` (`main.py` lines
61-86): for each record in order, resolve its timestamp (raising on a
bad string), format it, classify its price, and append the observation.
The first bad record aborts the whole construction. -/
def build_observations : List PriceSignal → Except DchError (List Observation)
  | [] => Except.ok []
  | ps :: rest =>
      match resolve ps.settlementdate with
      | Except.error e => Except.error e
      | Except.ok timestamp =>
          match build_observations rest with
          | Except.error e => Except.error e
          | Except.ok obs =>
              Except.ok ({ t := strftimeDCH timestamp, p := "0",
                           n := calculate_rrp_value ps.rrp } :: obs)

/-- Embeds `construct_dch_payload` (`main.py` lines 37-94): the empty
input returns the empty envelope; otherwise the point table has the
single entry keyed `"0"` and the data sequence is the per-record
observation list. A timestamp parse failure propagates as the error. -/
def construct_dch_payload (price_signals : List PriceSignal) :
    Except DchError DchPayload :=
  if price_signals.isEmpty then
    Except.ok { metadata := { points := [] }, data := [] }
  else
    match build_observations price_signals with
    | Except.error e => Except.error e
    | Except.ok obs =>
        Except.ok { metadata := { points := [("0", composite_point_id)] },
                    data := obs }

/-- Loop body count of `batch_list` (`backfill.py` lines 81-95): the
Python loop `for i in range(0, len(items), batch_size)` runs once per
start index; with a positive step that is the ceiling of
`len(items) / batch_size` iterations, and each iteration appends the
slice `items[i : i + batch_size]`. `batch_go bs n items` performs `n`
such iterations, each taking the next `bs` elements. -/
def batch_go (bs : Nat) : Nat → List α → List (List α)
  | 0, _ => []
  | n + 1, items => items.take bs :: batch_go bs n (items.drop bs)

/-- Embeds `batch_list` (`backfill.py` lines 81-95). Faithful for every
positive `batch_size` (Python raises `ValueError` on a zero `range`
step; the repository only calls it with `BATCH_SIZE = 50`). -/
def batch_list (items : List α) (batch_size : Nat) : List (List α) :=
  batch_go batch_size ((items.length + batch_size - 1) / batch_size) items

/-- The per-chunk loop of `main` (`backfill.py` lines 124-158) with its
two counters. `upl i = true` means the HTTP upload of chunk `i`
(0-based) returns without raising; the network outcome is an oracle
because it is not determined by the payload. A chunk whose payload
construction raises, or whose upload raises, increments the failed
counter and the loop continues; otherwise the successful counter is
incremented. -/
def backfillLoop (upl : Nat → Bool) :
    List (List PriceSignal) → Nat → Nat → Nat → Nat × Nat
  | [], _, s, f => (s, f)
  | b :: rest, i, s, f =>
      match construct_dch_payload b with
      | Except.ok _ =>
          if upl i then backfillLoop upl rest (i + 1) (s + 1) f
          else backfillLoop upl rest (i + 1) s (f + 1)
      | Except.error _ => backfillLoop upl rest (i + 1) s (f + 1)

/-- Aggregate outcome of one backfill run: the two counters of
`backfill.py` `main` and the value it returns to `sys.exit`. -/
structure BackfillOutcome where
  successful_uploads : Nat
  failed_uploads : Nat
  exit_code : Nat
  deriving DecidableEq, Repr

/-- Embeds `main` (`backfill.py` lines 97-167) given the fetched record
list and the upload oracle: an empty fetch returns exit code 0
immediately; otherwise the records are chunked with `BATCH_SIZE = 50`,
every chunk is driven through build + upload with per-chunk exception
handling, and the exit code is 0 exactly when no chunk failed. -/
def backfill_run (upl : Nat → Bool) (price_signals : List PriceSignal) :
    BackfillOutcome :=
  if price_signals.isEmpty then ⟨0, 0, 0⟩
  else
    let batches := batch_list price_signals 50
    let counts := backfillLoop upl batches 0 0 0
    ⟨counts.1, counts.2, if counts.2 = 0 then 0 else 1⟩

/-- Boolean success of an `Except` value. -/
def exceptIsOk : Except ε α → Bool
  | Except.ok _ => true
  | Except.error _ => false

/-- Number of chunks, starting at index `i`, whose payload construction
succeeds and whose upload attempt succeeds — the chunks the backfill
loop counts as successful. -/
def countSucc (upl : Nat → Bool) : Nat → List (List PriceSignal) → Nat
  | _, [] => 0
  | i, b :: rest =>
      (if exceptIsOk (construct_dch_payload b) && upl i then 1 else 0) +
        countSucc upl (i + 1) rest

/-- JSON value as assembled by the periodic job's response bodies
(`json.dumps` of dicts of strings, ints and one nested dict). -/
inductive Json where
  | str (s : String)
  | num (n : Int)
  | obj (fields : List (String × Json))

/-- Result dictionary of `upload_to_dch` (`main.py` line 125):
`statusCode` and raw response text. -/
structure UploadResult where
  statusCode : Nat
  body : String

/-- Structured return value of the Lambda handler: `statusCode` plus
the body dictionary (serialized with `json.dumps` in the source; the
serialization is external formatting and kept structured here). -/
structure LambdaResult where
  statusCode : Nat
  body : Json

/-- The `upload_to_dch` result rendered into the success body's
`dch_response` entry. -/
def uploadResultJson (r : UploadResult) : Json :=
  Json.obj [("statusCode", Json.num (r.statusCode : Int)),
            ("body", Json.str r.body)]

/-- Embeds `lambda_handler` (`main.py` lines 130-184) given the record
list fetched for the last hour and the upload outcome (`Except.error`
models a raising `upload_to_dch`). The second component reports whether
an upload was attempted. An empty fetch returns status 200 with the
no-records message and performs no upload; any exception is caught at
the handler boundary and converted to a status-500 body. -/
def lambda_handler (fetched : List PriceSignal)
    (upload : DchPayload → Except String UploadResult) : LambdaResult × Bool :=
  if fetched.isEmpty then
    ({ statusCode := 200,
       body := Json.obj
         [("message", Json.str "No price signals found for the last hour")] },
     false)
  else
    match construct_dch_payload fetched with
    | Except.error e =>
        ({ statusCode := 500,
           body := Json.obj
             [("error", Json.str e.text),
              ("message", Json.str "Failed to process and upload price signals")] },
         false)
    | Except.ok pl =>
        match upload pl with
        | Except.error msg =>
            ({ statusCode := 500,
               body := Json.obj
                 [("error", Json.str msg),
                  ("message",
                   Json.str "Failed to process and upload price signals")] },
             true)
        | Except.ok res =>
            ({ statusCode := 200,
               body := Json.obj
                 [("message",
                   Json.str "Successfully processed and uploaded price signals to DCH"),
                  ("price_signals_processed", Json.num (fetched.length : Int)),
                  ("dch_response", uploadResultJson res)] },
             true)

/-- Days since 1970-01-01 of a Gregorian civil date (Hinnant's
`days_from_civil`), used to give each wall-clock timestamp its instant
on the UTC timeline. -/
def daysFromCivil (y : Int) (m d : Nat) : Int :=
  let y' : Int := if m ≤ 2 then y - 1 else y
  let era : Int := (if 0 ≤ y' then y' else y' - 399) / 400
  let yoe : Nat := (y' - era * 400).toNat
  let doy : Nat := (153 * (if 2 < m then m - 3 else m + 9) + 2) / 5 + d - 1
  let doe : Nat := yoe * 365 + yoe / 4 - yoe / 100 + doy
  era * 146097 + (doe : Int) - 719468

/-- Gregorian civil date of a day count since 1970-01-01 (Hinnant's
`civil_from_days`), the inverse of `daysFromCivil`. -/
def civilFromDays (z : Int) : Int × Nat × Nat :=
  let z' : Int := z + 719468
  let era : Int := (if 0 ≤ z' then z' else z' - 146096) / 146097
  let doe : Nat := (z' - era * 146097).toNat
  let yoe : Nat := (doe - doe / 1460 + doe / 36524 - doe / 146096) / 365
  let y : Int := (yoe : Int) + era * 400
  let doy : Nat := doe - (365 * yoe + yoe / 4 - yoe / 100)
  let mp : Nat := (5 * doy + 2) / 153
  let d : Nat := doy - (153 * mp + 2) / 5 + 1
  let m : Nat := if mp < 10 then mp + 3 else mp - 9
  (if m ≤ 2 then y + 1 else y, m, d)

/-- Seconds since 1970-01-01T00:00:00Z of the instant a `DateTime`
denotes: its wall-clock fields shifted back by its UTC offset (a naive
datetime is read at offset zero). -/
def instantSeconds (dt : DateTime) : Int :=
  daysFromCivil (dt.year : Int) dt.month dt.day * 86400 +
    (dt.hour : Int) * 3600 + (dt.minute : Int) * 60 + (dt.second : Int) -
    (dt.offsetMinutes.getD 0) * 60

/-- Modelled from the spec: the observation timestamp as the
specification prescribes it — the record's settlement instant
"normalized to UTC", then rendered ISO-8601 with second precision and a
literal `Z` suffix. The instant is recovered from the wall-clock fields
and offset, re-expressed as a UTC civil time, and formatted. The
repository's own formatting (`strftimeDCH`) is compared against this. -/
def utc_format_spec (dt : DateTime) : String :=
  let total : Int := instantSeconds dt
  let days : Int := Int.fdiv total 86400
  let rem : Nat := (total - days * 86400).toNat
  let ymd := civilFromDays days
  pad4 ymd.1.toNat ++ "-" ++ pad2 ymd.2.1 ++ "-" ++ pad2 ymd.2.2 ++ "T" ++
    pad2 (rem / 3600) ++ ":" ++ pad2 (rem % 3600 / 60) ++ ":" ++
    pad2 (rem % 60) ++ "Z"

/-- A record carrying a well-formed naive settlement datetime. -/
def goodRec : PriceSignal :=
  ⟨SettlementDate.dt ⟨2024, 1, 1, 0, 0, 0, none⟩, 450⟩

/-- A record whose settlement timestamp is a string that is not a valid
timestamp representation. -/
def badRec : PriceSignal :=
  ⟨SettlementDate.str "not-a-timestamp", 450⟩

/-- One hundred and one well-formed records: three chunks of size 50,
50 and 1 under `BATCH_SIZE = 50`. -/
def sigs101 : List PriceSignal := List.replicate 101 goodRec

/-- Fifty-one records whose first chunk contains the unparseable record
and whose second chunk is well-formed. -/
def badSigs : List PriceSignal := badRec :: List.replicate 50 goodRec

/-- A settlement datetime carried with a non-UTC offset: wall clock
2024-01-01T10:00:00 at UTC+10:00, i.e. the instant
2024-01-01T00:00:00Z. -/
def d10 : DateTime := ⟨2024, 1, 1, 10, 0, 0, some 600⟩

/-- A record carrying `d10`. -/
def rec10 : PriceSignal := ⟨SettlementDate.dt d10, 450⟩

/-- The envelope the payload builder produces for `[rec10]`. -/
def pl10 : DchPayload :=
  ⟨⟨[("0", composite_point_id)]⟩, [⟨"2024-01-01T10:00:00Z", "0", 0⟩]⟩

/-- The envelope the payload builder produces for `[goodRec]`. -/
def plGood : DchPayload :=
  ⟨⟨[("0", composite_point_id)]⟩, [⟨"2024-01-01T00:00:00Z", "0", 0⟩]⟩

theorem batch_go_length (bs : Nat) :
    ∀ (n : Nat) (items : List α), (batch_go bs n items).length = n := by
  intro n
  induction n with
  | zero => intro items; rfl
  | succ m ih => intro items; simp [batch_go, ih]

theorem batch_list_nil (bs : Nat) : batch_list ([] : List α) bs = [] := by
  have hz : (0 + bs - 1) / bs = 0 := by
    cases bs with
    | zero => rfl
    | succ n =>
        rw [Nat.zero_add]
        exact Nat.div_eq_of_lt (by omega)
  simp only [batch_list, List.length_nil, hz]
  rfl

theorem batch_go50_flatten : ∀ (n : Nat) (items : List α),
    n = (items.length + 49) / 50 → (batch_go 50 n items).flatten = items := by
  intro n
  induction n with
  | zero =>
      intro items h
      have h0 : items.length = 0 := by omega
      rw [List.length_eq_zero.mp h0]
      rfl
  | succ m ih =>
      intro items h
      have hlen : (items.drop 50).length = items.length - 50 := by
        simp [List.length_drop]
      simp only [batch_go, List.flatten_cons]
      rw [ih (items.drop 50) (by rw [hlen]; omega)]
      exact List.take_append_drop 50 items

theorem batch_go50_sizes : ∀ (n : Nat) (items : List α),
    n = (items.length + 49) / 50 →
    (∀ c ∈ (batch_go 50 n items).dropLast, c.length = 50) ∧
    (∀ c ∈ batch_go 50 n items, 1 ≤ c.length ∧ c.length ≤ 50) := by
  intro n
  induction n with
  | zero =>
      intro items h
      constructor <;> intro c hc <;> simp [batch_go] at hc
  | succ m ih =>
      intro items h
      have hL : 1 ≤ items.length := by omega
      have hlen : (items.drop 50).length = items.length - 50 := by
        simp [List.length_drop]
      have hm : m = ((items.drop 50).length + 49) / 50 := by rw [hlen]; omega
      obtain ⟨ih1, ih2⟩ := ih (items.drop 50) hm
      constructor
      · intro c hc
        cases m with
        | zero => simp [batch_go] at hc
        | succ k =>
            have htne : batch_go 50 (k + 1) (items.drop 50) ≠ [] := by
              intro hx
              have := batch_go_length 50 (k + 1) (items.drop 50)
              rw [hx] at this
              simp at this
            have hstep : (batch_go 50 (k + 1 + 1) items).dropLast =
                items.take 50 :: (batch_go 50 (k + 1) (items.drop 50)).dropLast := by
              show (items.take 50 :: batch_go 50 (k + 1) (items.drop 50)).dropLast = _
              exact List.dropLast_cons_of_ne_nil htne
            rw [hstep] at hc
            rcases List.mem_cons.mp hc with rfl | hc2
            · have hL2 : 50 ≤ items.length := by omega
              simp [List.length_take]
              omega
            · exact ih1 c hc2
      · intro c hc
        simp only [batch_go, List.mem_cons] at hc
        rcases hc with rfl | hc2
        · simp [List.length_take]
          omega
        · exact ih2 c hc2

theorem countSucc_le (upl : Nat → Bool) (bs : List (List PriceSignal)) :
    ∀ i, countSucc upl i bs ≤ bs.length := by
  induction bs with
  | nil => intro i; simp [countSucc]
  | cons b rest ih =>
      intro i
      simp only [countSucc, List.length_cons]
      have := ih (i + 1)
      split <;> omega

theorem backfillLoop_eq (upl : Nat → Bool) (bs : List (List PriceSignal)) :
    ∀ i s f, backfillLoop upl bs i s f =
      (s + countSucc upl i bs, f + (bs.length - countSucc upl i bs)) := by
  induction bs with
  | nil => intro i s f; simp [backfillLoop, countSucc]
  | cons b rest ih =>
      intro i s f
      have hle := countSucc_le upl rest (i + 1)
      cases hcb : construct_dch_payload b with
      | ok v =>
          cases hu : upl i with
          | true =>
              simp only [backfillLoop, hcb, hu, countSucc, exceptIsOk,
                Bool.true_and, List.length_cons, ih, Prod.mk.injEq, if_true]
              constructor <;> omega
          | false =>
              simp only [backfillLoop, hcb, hu, countSucc, exceptIsOk,
                Bool.true_and, List.length_cons, ih, Prod.mk.injEq,
                Bool.false_eq_true, if_false]
              constructor <;> omega
      | error e =>
          simp only [backfillLoop, hcb, countSucc, exceptIsOk, Bool.false_and,
            List.length_cons, ih, Prod.mk.injEq, Bool.false_eq_true, if_false]
          constructor <;> omega

theorem backfill_run_counts (upl : Nat → Bool) (sigs : List PriceSignal) :
    (backfill_run upl sigs).successful_uploads
        = countSucc upl 0 (batch_list sigs 50) ∧
    (backfill_run upl sigs).failed_uploads
        = (batch_list sigs 50).length - countSucc upl 0 (batch_list sigs 50) ∧
    (backfill_run upl sigs).exit_code
        = (if (backfill_run upl sigs).failed_uploads = 0 then 0 else 1) := by
  cases sigs with
  | nil =>
      rw [batch_list_nil]
      exact ⟨rfl, rfl, rfl⟩
  | cons a rest =>
      have h := backfillLoop_eq upl (batch_list (a :: rest) 50) 0 0 0
      simp only [backfill_run, List.isEmpty_cons, Bool.false_eq_true, if_false, h,
        Nat.zero_add]
      exact ⟨trivial, trivial, trivial⟩

theorem build_observations_spec (R : List PriceSignal) :
    ∀ obs, build_observations R = Except.ok obs →
      obs.length = R.length ∧
      ∀ (i : Nat) (r : PriceSignal), R[i]? = some r →
        ∃ d, resolve r.settlementdate = Except.ok d ∧
          obs[i]? = some ⟨strftimeDCH d, "0", calculate_rrp_value r.rrp⟩ := by
  induction R with
  | nil =>
      intro obs h
      simp only [build_observations, Except.ok.injEq] at h
      subst h
      refine ⟨rfl, ?_⟩
      intro i r hir
      simp at hir
  | cons ps rest ih =>
      intro obs h
      simp only [build_observations] at h
      cases hr : resolve ps.settlementdate with
      | error e => rw [hr] at h; cases h
      | ok d =>
          rw [hr] at h
          cases hb : build_observations rest with
          | error e => rw [hb] at h; cases h
          | ok obs' =>
              rw [hb] at h
              simp only [Except.ok.injEq] at h
              subst h
              obtain ⟨hlen, hspec⟩ := ih obs' hb
              refine ⟨by simp [hlen], ?_⟩
              intro i r hir
              cases i with
              | zero =>
                  simp only [List.getElem?_cons_zero, Option.some.injEq] at hir
                  subst hir
                  exact ⟨d, hr, by simp⟩
              | succ n =>
                  simp only [List.getElem?_cons_succ] at hir ⊢
                  exact hspec n r hir

theorem build_observations_error (R : List PriceSignal) (r : PriceSignal)
    (hmem : r ∈ R) (e0 : DchError)
    (hbad : resolve r.settlementdate = Except.error e0) :
    ∃ e, build_observations R = Except.error e := by
  induction R with
  | nil => cases hmem
  | cons a rest ih =>
      rcases List.mem_cons.mp hmem with rfl | hmem2
      · exact ⟨e0, by simp [build_observations, hbad]⟩
      · cases ha : resolve a.settlementdate with
        | error ea => exact ⟨ea, by simp [build_observations, ha]⟩
        | ok d =>
            obtain ⟨e, he⟩ := ih hmem2
            exact ⟨e, by simp [build_observations, ha, he]⟩

/-- C1: in the batch job, a failed upload of one chunk does not stop the
run. For every upload-outcome oracle and record list, the successful and
failed chunk counters sum to the total chunk count (each chunk
increments exactly one of them, so every chunk after a failure is still
attempted), and the process exit code is 0 iff the failed-chunk count is
zero. In the concrete scenario of 101 records — three chunks — where
only chunk 2's upload raises, chunk 3 is still attempted and the run
ends with successful count 2, failed count 1, exit code 1. -/
theorem C1_batch_failure_isolation (upl : Nat → Bool) (sigs : List PriceSignal) :
    (backfill_run upl sigs).successful_uploads +
        (backfill_run upl sigs).failed_uploads = (batch_list sigs 50).length ∧
    ((backfill_run upl sigs).exit_code = 0 ↔
        (backfill_run upl sigs).failed_uploads = 0) ∧
    backfill_run (fun i => i != 1) sigs101 =
      { successful_uploads := 2, failed_uploads := 1, exit_code := 1 } := by
  obtain ⟨h1, h2, h3⟩ := backfill_run_counts upl sigs
  have hle := countSucc_le upl (batch_list sigs 50) 0
  refine ⟨by omega, ?_, by decide⟩
  rw [h3]
  split <;> omega

/-- C3 counterexample: the claim says a parse failure while building a
chunk's envelope aborts the run outright and is not converted into a
failed-chunk count with the run continuing. On `badSigs` (51 records,
two chunks, the first chunk containing a record whose timestamp string
cannot be parsed) with every upload succeeding, the code instead counts
the parse-failing chunk as failed (failed count 1, not an abort) and
continues: the second chunk is attempted and succeeds (successful count
1), and the run completes with exit code 1. -/
theorem C3_counterexample :
    backfill_run (fun _ => true) badSigs =
      { successful_uploads := 1, failed_uploads := 1, exit_code := 1 } ∧
    (backfill_run (fun _ => true) badSigs).failed_uploads ≠ 0 ∧
    (backfill_run (fun _ => true) badSigs).successful_uploads ≠ 0 :=
  ⟨by decide, by decide, by decide⟩

/-- C3 amended: in the batch job a parse failure while building a
chunk's envelope is caught by the same per-chunk handler as network
failures: the chunk is counted as failed and the run continues. For
every oracle and record list, the successful counter is exactly the
number of chunks whose payload construction succeeds and whose upload
succeeds, and the failed counter is exactly the number of remaining
chunks — chunks with parse failures included — so parse failures are
confined to the per-chunk loop and never abort the run. -/
theorem C3_parse_confined (upl : Nat → Bool) (sigs : List PriceSignal) :
    (backfill_run upl sigs).successful_uploads
        = countSucc upl 0 (batch_list sigs 50) ∧
    (backfill_run upl sigs).failed_uploads
        = (batch_list sigs 50).length - countSucc upl 0 (batch_list sigs 50) ∧
    backfill_run (fun _ => true) (badRec :: List.replicate 50 goodRec) =
      { successful_uploads := 1, failed_uploads := 1, exit_code := 1 } := by
  obtain ⟨h1, h2, h3⟩ := backfill_run_counts upl sigs
  exact ⟨h1, h2, by decide⟩

/-- C2 counterexample: the claim says the observation's `t` field is the
record's settlement instant expressed in UTC, including for timestamps
carried with a non-UTC offset. For the record whose settlement datetime
is 2024-01-01T10:00:00 at offset UTC+10:00 — the instant
2024-01-01T00:00:00Z — the payload builder emits
`"2024-01-01T10:00:00Z"`, the wall-clock fields with a literal `Z`,
while the instant expressed in UTC is `"2024-01-01T00:00:00Z"`. -/
theorem C2_counterexample :
    construct_dch_payload [rec10] = Except.ok pl10 ∧
    pl10.data.map Observation.t = ["2024-01-01T10:00:00Z"] ∧
    utc_format_spec d10 = "2024-01-01T00:00:00Z" ∧
    ("2024-01-01T10:00:00Z" : String) ≠ "2024-01-01T00:00:00Z" :=
  ⟨rfl, by decide, by decide, by decide⟩

/-- C2 amended: the payload builder does not normalize timestamps to
UTC. The observation's `t` field is the record's wall-clock fields
formatted `YYYY-MM-DDTHH:MM:SSZ` with a literal `Z` appended, and the
formatting ignores any UTC offset the datetime carries: changing the
offset leaves the formatted string unchanged. -/
theorem C2_wallclock_format (d : DateTime) (q : ℚ) (rest : List PriceSignal)
    (pl : DchPayload)
    (h : construct_dch_payload
        ({ settlementdate := SettlementDate.dt d, rrp := q } :: rest)
        = Except.ok pl) :
    (∃ o, pl.data.head? = some o ∧ o.t = strftimeDCH d) ∧
    ∀ off : Option Int,
      strftimeDCH { year := d.year, month := d.month, day := d.day,
                    hour := d.hour, minute := d.minute, second := d.second,
                    offsetMinutes := off }
        = strftimeDCH d := by
  constructor
  · simp only [construct_dch_payload, List.isEmpty_cons, Bool.false_eq_true,
      if_false] at h
    cases hb : build_observations
        ({ settlementdate := SettlementDate.dt d, rrp := q } :: rest) with
    | error e => rw [hb] at h; cases h
    | ok obs =>
        rw [hb] at h
        simp only [Except.ok.injEq] at h
        subst h
        simp only [build_observations, resolve] at hb
        cases hb2 : build_observations rest with
        | error e => rw [hb2] at hb; cases hb
        | ok obs' =>
            rw [hb2] at hb
            simp only [Except.ok.injEq] at hb
            subst hb
            exact ⟨_, rfl, rfl⟩
  · intro off
    rfl

/-- C2 witness: the amended theorem applied to the offset-carrying
record `rec10`, whose `t` field is the wall-clock rendering of `d10`. -/
theorem C2_wallclock_format_witness :
    ∃ o, pl10.data.head? = some o ∧ o.t = strftimeDCH d10 :=
  (C2_wallclock_format d10 450 [] pl10 rfl).1

/-- C4: the classifier is a pure total function with bands closed below
and open above: every price below 500 (negative and zero included) maps
to 0, every price in [500, 1000) maps to 1, every price at or above
1000 maps to 2, and the boundary examples evaluate as the specification
states. -/
theorem C4_classifier_bands (p : ℚ) :
    (p < 500 → calculate_rrp_value p = 0) ∧
    (500 ≤ p → p < 1000 → calculate_rrp_value p = 1) ∧
    (1000 ≤ p → calculate_rrp_value p = 2) ∧
    calculate_rrp_value (499.99 : ℚ) = 0 ∧
    calculate_rrp_value (500 : ℚ) = 1 ∧
    calculate_rrp_value (999.99 : ℚ) = 1 ∧
    calculate_rrp_value (1000 : ℚ) = 2 := by
  refine ⟨?_, ?_, ?_, ?_, ?_, ?_, ?_⟩
  · intro h
    simp [calculate_rrp_value, h]
  · intro h1 h2
    simp [calculate_rrp_value, h2, not_lt.mpr h1]
  · intro h
    have hn1 : ¬ p < 500 := by linarith
    have hn2 : ¬ p < 1000 := by linarith
    simp [calculate_rrp_value, hn1, hn2]
  · norm_num [calculate_rrp_value]
  · norm_num [calculate_rrp_value]
  · norm_num [calculate_rrp_value]
  · norm_num [calculate_rrp_value]

/-- C4 witness: the band implications discharged at the concrete prices
-5 (negative input), 750 and 2000. -/
theorem C4_classifier_bands_witness :
    calculate_rrp_value (-5 : ℚ) = 0 ∧ calculate_rrp_value (750 : ℚ) = 1 ∧
    calculate_rrp_value (2000 : ℚ) = 2 :=
  ⟨(C4_classifier_bands (-5)).1 (by norm_num),
   (C4_classifier_bands 750).2.1 (by norm_num) (by norm_num),
   (C4_classifier_bands 2000).2.2.1 (by norm_num)⟩

/-- C5: for every non-empty record list that builds successfully, the
envelope has exactly one point-table entry, key "0", valued
`"evse:" ++ dataPoolId ++ ":" ++ pointId`; the data sequence has the
input's length; and the i-th observation is the observation of the i-th
record in input order, with point reference "0" and level
`classify(price)`. -/
theorem C5_payload_structure (R : List PriceSignal) (pl : DchPayload)
    (hne : R ≠ []) (h : construct_dch_payload R = Except.ok pl) :
    pl.metadata.points =
        [("0", "evse:" ++ DCH_DATA_POOL_ID ++ ":" ++ DCH_POINT_ID)] ∧
    pl.data.length = R.length ∧
    ∀ (i : Nat) (r : PriceSignal), R[i]? = some r →
      ∃ d, resolve r.settlementdate = Except.ok d ∧
        pl.data[i]? = some ⟨strftimeDCH d, "0", calculate_rrp_value r.rrp⟩ := by
  cases R with
  | nil => exact absurd rfl hne
  | cons a rest =>
      simp only [construct_dch_payload, List.isEmpty_cons, Bool.false_eq_true,
        if_false] at h
      cases hb : build_observations (a :: rest) with
      | error e => rw [hb] at h; cases h
      | ok obs =>
          rw [hb] at h
          simp only [Except.ok.injEq] at h
          subst h
          obtain ⟨hlen, hspec⟩ := build_observations_spec (a :: rest) obs hb
          exact ⟨rfl, hlen, hspec⟩

/-- C5 witness: the structure theorem discharged on the singleton list
`[goodRec]` and its concrete envelope. -/
theorem C5_payload_structure_witness :
    plGood.metadata.points =
        [("0", "evse:" ++ DCH_DATA_POOL_ID ++ ":" ++ DCH_POINT_ID)] ∧
    plGood.data.length = [goodRec].length ∧
    ∃ d, resolve goodRec.settlementdate = Except.ok d ∧
      plGood.data[0]? = some ⟨strftimeDCH d, "0", calculate_rrp_value goodRec.rrp⟩ := by
  obtain ⟨h1, h2, h3⟩ :=
    C5_payload_structure [goodRec] plGood (List.cons_ne_nil _ _) rfl
  exact ⟨h1, h2, h3 0 goodRec rfl⟩

/-- C6: chunking a list with chunk size 50 yields exactly
`ceil(length / 50)` chunks; concatenating the chunks in order
reproduces the list exactly (no overlap, no gaps); every chunk except
possibly the last has length exactly 50; and every chunk — the last
included — has length between 1 and 50. -/
theorem C6_chunking (items : List α) :
    (batch_list items 50).length = items.length ⌈/⌉ 50 ∧
    (batch_list items 50).flatten = items ∧
    (∀ c ∈ (batch_list items 50).dropLast, c.length = 50) ∧
    (∀ c ∈ batch_list items 50, 1 ≤ c.length ∧ c.length ≤ 50) := by
  have hfe : items.length + 50 - 1 = items.length + 49 := rfl
  have hdef : batch_list items 50 = batch_go 50 ((items.length + 49) / 50) items := by
    simp only [batch_list, hfe]
  obtain ⟨h1, h2⟩ := batch_go50_sizes ((items.length + 49) / 50) items rfl
  refine ⟨?_, ?_, ?_, ?_⟩
  · rw [hdef, batch_go_length, Nat.ceilDiv_eq_add_pred_div, hfe]
  · rw [hdef]
    exact batch_go50_flatten _ items rfl
  · rw [hdef]
    exact h1
  · rw [hdef]
    exact h2

/-- C6 witness: the chunking theorem discharged on a 51-element list
(two chunks), instantiating the all-but-last clause at the first
chunk. -/
theorem C6_chunking_witness :
    (batch_list (List.range 51) 50).flatten = List.range 51 ∧
    ((List.range 51).take 50).length = 50 := by
  obtain ⟨h1, h2, h3, h4⟩ := C6_chunking (List.range 51)
  exact ⟨h2, h3 ((List.range 51).take 50) (by decide)⟩

/-- C7: a record whose timestamp is a string that is not a valid
timestamp representation makes the payload builder fail with a parse
error that propagates to the caller: no envelope is returned for the
chunk, so the bad record is neither dropped nor replaced. -/
theorem C7_parse_error_propagates (R : List PriceSignal) (r : PriceSignal)
    (s : String) (hmem : r ∈ R)
    (hsd : r.settlementdate = SettlementDate.str s)
    (hbad : fromisoformat s = none) :
    ∃ e, construct_dch_payload R = Except.error e := by
  have hres : resolve r.settlementdate = Except.error (DchError.parseError s) := by
    rw [hsd]
    simp [resolve, hbad]
  obtain ⟨e, he⟩ := build_observations_error R r hmem _ hres
  cases R with
  | nil => cases hmem
  | cons a rest =>
      exact ⟨e, by simp [construct_dch_payload, he]⟩

/-- C7 witness: the propagation theorem discharged on the singleton list
holding the unparseable record. -/
theorem C7_parse_error_propagates_witness :
    ∃ e, construct_dch_payload [badRec] = Except.error e :=
  C7_parse_error_propagates [badRec] badRec "not-a-timestamp"
    (List.mem_singleton.mpr rfl) rfl rfl

/-- C8: the payload builder applied to the empty record list returns,
without failing, the envelope with an empty point table and an empty
data sequence. -/
theorem C8_build_empty :
    construct_dch_payload [] =
      Except.ok { metadata := { points := [] }, data := [] } :=
  rfl

/-- C9: when the periodic job's fetch of the last hour returns zero
records, the handler returns status 200 — a success-shaped result, not
an error — whose body carries the no-records message, and attempts no
upload, whatever the upload oracle would have answered. -/
theorem C9_periodic_empty (upload : DchPayload → Except String UploadResult) :
    lambda_handler [] upload =
      ({ statusCode := 200,
         body := Json.obj
           [("message", Json.str "No price signals found for the last hour")] },
       false) :=
  rfl

/-- C10: a NaN price classifies into the top band: both guard
comparisons are false under IEEE semantics, so the classifier returns
2; on every finite price the IEEE-carrier classifier agrees with the
rational one. -/
theorem C10_nan_top_band :
    calculate_rrp_value_ieee PFloat.nan = 2 ∧
    PFloat.flt PFloat.nan 500 = false ∧
    PFloat.flt PFloat.nan 1000 = false ∧
    ∀ q : ℚ, calculate_rrp_value_ieee (PFloat.fin q) = calculate_rrp_value q := by
  refine ⟨rfl, rfl, rfl, fun q => ?_⟩
  simp [calculate_rrp_value_ieee, calculate_rrp_value, PFloat.flt]
